import Mathlib

/-!
Shallow embedding of the editorjs-video block tool (src/index.ts, src/ui.ts).

JavaScript values are modelled explicitly: fields that may be `undefined`
or `null` at runtime are `Option`s, JavaScript numbers are a sum type
`JSNum` with `NaN` and infinities, and code that can throw returns
`Except String _`.  DOM behaviour at the boundary follows the HTML
standard: an `HTMLVideoElement` reports `videoWidth = videoHeight = 0`
until media data is available, while an `HTMLImageElement` has no
`videoWidth`/`videoHeight` properties at all (reads yield `undefined`).
The upload response shape (`success : 0|1`, `file : {url, ...extra}`)
follows the external-interface contract, since the TypeScript type
declarations are not part of the two embedded modules.
-/

/-- Model of a JavaScript number: NaN, the two infinities, or a finite
rational. -/
inductive JSNum where
  | nan
  | inf
  | ninf
  | num (q : ℚ)
deriving DecidableEq, Repr

/-- JavaScript truthiness of a number (`0` and `NaN` are falsy). -/
def jsTruthyNum : JSNum → Bool
  | .nan => false
  | .num q => q ≠ 0
  | _ => true

/-- JavaScript `a || b` where `a` may be absent (`undefined`). -/
def jsOrNum (a : Option JSNum) (b : JSNum) : JSNum :=
  match a with
  | some x => if jsTruthyNum x then x else b
  | none => b

/-- JavaScript division of two natural numbers: `0/0 = NaN`,
`w/0 = Infinity` for `w ≠ 0`, otherwise the exact rational. -/
def jsDivNat (w h : Nat) : JSNum :=
  if h = 0 then (if w = 0 then JSNum.nan else JSNum.inf) else JSNum.num ((w : ℚ) / (h : ℚ))

/-- Whether a JavaScript number is a positive number (`NaN` is not). -/
def jsPositive : JSNum → Bool
  | .num q => decide (0 < q)
  | .inf => true
  | _ => false

/-- JavaScript truthiness of a possibly-absent string (`undefined`, `null`
and the empty string are falsy). -/
def strTruthy : Option String → Bool
  | none => false
  | some t => t ≠ ""

/-- The `file` object of a video record or upload response: a `url` field
(possibly absent at runtime) plus opaque pass-through extra fields. -/
structure FileObj where
  url : Option String
  extra : List (String × String)
deriving DecidableEq, Repr

/-- Server response delivered to the upload callback:
`{ success: 0|1, file: {url, ...} }`; either field may be absent or
malformed at runtime, so `file` is optional. -/
structure UploadResponseFormat where
  success : Nat
  file : Option FileObj
deriving DecidableEq, Repr

/-- Host-supplied saved block data as a JavaScript object: any field may
be absent.  `aspect` models the source field `aspectRatio`. -/
structure VideoToolData where
  file : Option FileObj
  caption : Option String
  aspect : Option JSNum
deriving DecidableEq, Repr

/-- The tool's internal `_data` record, which is always fully populated
(defaults `{caption: '', aspectRatio: 1, file: {url: ''}}`).
`aspect` models the source field `aspectRatio`. -/
structure InternalData where
  file : FileObj
  caption : String
  aspect : JSNum
deriving DecidableEq, Repr

/-- The three Ui status values of `UiState` in ui.ts. -/
inductive UiState where
  | empty
  | uploading
  | filled
deriving DecidableEq, Repr

/-- The element kind chosen by `Ui.fillVideo`. -/
inductive MediaTag where
  | VIDEO
  | IMG
deriving DecidableEq, Repr

/-- The media element created by `Ui.fillVideo`: its tag, source, the
readiness event its listener waits for, and the natural dimensions the
DOM reports (`videoWidth`/`videoHeight` exist only on video elements,
and are `0` until media data has loaded). -/
structure MediaEl where
  tag : MediaTag
  src : String
  eventName : String
  videoWidth : Option Nat
  videoHeight : Option Nat
deriving DecidableEq, Repr

/-- State of the Ui module: the status modifier classes currently set on
the wrapper (`video-tool--empty` etc., as a set of `UiState`s), the
media element if one was created, the caption element's innerHTML, and
the tune modifier classes on the wrapper. -/
structure UiModel where
  statusClasses : List UiState
  videoEl : Option MediaEl
  captionHTML : String
  tuneClasses : List String
deriving DecidableEq, Repr

/-- Ui state right after the `Ui` constructor: the wrapper carries no
status modifier class, no media element exists, the caption is empty. -/
def initUi : UiModel :=
  { statusClasses := [], videoEl := none, captionHTML := "", tuneClasses := [] }

/-- `Ui.toggleStatus`: toggles each of the three status classes on the
wrapper to `state === status`, leaving exactly the requested one set. -/
def toggleStatus (status : UiState) (ui : UiModel) : UiModel :=
  { ui with statusClasses := [status] }

/-- `Ui.showPreloader`: `toggleStatus(UiState.Uploading)`. -/
def showPreloader (ui : UiModel) : UiModel :=
  toggleStatus .uploading ui

/-- `Ui.hidePreloader`: `toggleStatus(UiState.Empty)`. -/
def hidePreloader (ui : UiModel) : UiModel :=
  toggleStatus .empty ui

/-- `Ui.render`: `toggleStatus(UiState.Empty)` and return the wrapper. -/
def uiRender (ui : UiModel) : UiModel :=
  toggleStatus .empty ui

/-- `Ui.fillCaption`: sets the caption element's innerHTML. -/
def fillCaption (text : String) (ui : UiModel) : UiModel :=
  { ui with captionHTML := text }

/-- `Ui.applyTune`: `classList.toggle` of the tune modifier class on the
wrapper, forced to `status`. -/
def applyTune (tuneName : String) (status : Bool) (ui : UiModel) : UiModel :=
  { ui with tuneClasses :=
      if status then
        (if tuneName ∈ ui.tuneClasses then ui.tuneClasses else ui.tuneClasses ++ [tuneName])
      else ui.tuneClasses.filter (fun c => c ≠ tuneName) }

/-- The regex test `/\.mp4$/.test(url)` of `Ui.fillVideo`: true iff the
url ends with the four characters `.mp4` (case-sensitive, anchored at
the very end, so a trailing query string defeats it). -/
def mp4Test (url : String) : Bool :=
  List.isSuffixOf ['.', 'm', 'p', '4'] url.data

/-- `Ui.fillVideo`: picks the tag by `/\.mp4$/.test(url)` (VIDEO for a
url ending in `.mp4`, IMG otherwise), the readiness event accordingly
(`loadeddata` for VIDEO, `load` for IMG), creates the element and
attaches the listener.  The status classes are not touched here; only
the listener firing changes them.  Dimensions at creation follow the
DOM: a video element reports `0` until data loads, an image element has
no such properties. -/
def fillVideo (url : String) (ui : UiModel) : UiModel :=
  let tag := if mp4Test url then MediaTag.VIDEO else MediaTag.IMG
  let eventName := if mp4Test url then "loadeddata" else "load"
  { ui with videoEl := some (
      { tag := tag
      , src := url
      , eventName := eventName
      , videoWidth := if mp4Test url then some 0 else none
      , videoHeight := if mp4Test url then some 0 else none : MediaEl }) }

/-- The browser firing the element's readiness event (`load` /
`loadeddata`): the listener attached in `Ui.fillVideo` runs
`toggleStatus(UiState.Filled)`.  If no element was ever created there is
no listener and nothing happens. -/
def fireMediaEvent (ui : UiModel) : UiModel :=
  match ui.videoEl with
  | none => ui
  | some _ => toggleStatus .filled ui

/-- The `features.caption` configuration value: `true`, `false`,
`'optional'`, or absent. -/
inductive CaptionFeature where
  | ctrue
  | cfalse
  | coptional
  | cundef
deriving DecidableEq, Repr

/-- State of the `VideoTool` block controller: the Ui module state, the
internal `_data` record, how many failure notifications have been shown,
the tri-state caption flag, and the `features.caption` config. -/
structure ToolState where
  ui : UiModel
  record : InternalData
  notices : Nat
  isCaptionEnabled : Option Bool
  featuresCaption : CaptionFeature
deriving DecidableEq, Repr

/-- The `video` setter: `this._data.file = file || { url: '' }`, then
`if (file && file.url) this.ui.fillVideo(file.url)`. -/
def videoSetter (file : Option FileObj) (s : ToolState) : ToolState :=
  let s' := { s with record := { s.record with
      file := file.getD { url := some "", extra := [] } } }
  match file with
  | some f =>
      match f.url with
      | some u => if u ≠ "" then { s' with ui := fillVideo u s'.ui } else s'
      | none => s'
  | none => s'

/-- `VideoTool.uploadingFailed`: logs, shows exactly one error
notification, and hides the preloader. -/
def uploadingFailed (s : ToolState) : ToolState :=
  { s with notices := s.notices + 1, ui := hidePreloader s.ui }

/-- `VideoTool.onUpload`: `if (response.success && Boolean(response.file))
this.video = response.file; else this.uploadingFailed(...)`. -/
def onUpload (response : UploadResponseFormat) (s : ToolState) : ToolState :=
  if (response.success != 0) && response.file.isSome then
    videoSetter response.file s
  else
    uploadingFailed s

/-- The `data` setter: sets the video file, then
`_data.caption = data.caption || ''` mirrored into the Ui caption, then
`this.data.aspectRatio = data.aspectRatio || 1`, then, when
`features.caption === true`, applies the caption tune from
`Boolean(data.caption || '')`. -/
def dataSetter (d : VideoToolData) (s : ToolState) : ToolState :=
  let s1 := videoSetter d.file s
  let cap := d.caption.getD ""
  let s2 := { s1 with record := { s1.record with caption := cap }
                    , ui := fillCaption cap s1.ui }
  let s3 := { s2 with record := { s2.record with
      aspect := jsOrNum d.aspect (JSNum.num 1) } }
  if s3.featuresCaption = CaptionFeature.ctrue then
    { s3 with ui := applyTune "caption" (cap ≠ "") s3.ui }
  else s3

/-- The `VideoTool` constructor: seeds `_data` with the defaults
`{caption: '', aspectRatio: 1, file: {url: ''}}`, builds the Ui, then
runs `this.data = data` on the host-supplied saved data. -/
def mkTool (fc : CaptionFeature) (d : VideoToolData) : ToolState :=
  dataSetter d
    { ui := initUi
    , record := { file := { url := some "", extra := [] }, caption := "", aspect := JSNum.num 1 }
    , notices := 0
    , isCaptionEnabled := none
    , featuresCaption := fc }

/-- `VideoTool.validate`: `return !!savedData.file.url`.  Reading `url`
off a missing or `null` `file` throws a `TypeError` at runtime, modelled
as `Except.error`. -/
def validate (savedData : VideoToolData) : Except String Bool :=
  match savedData.file with
  | none => Except.error "TypeError: cannot read url of undefined"
  | some f => Except.ok (strTruthy f.url)

/-- `VideoTool.save`: reads the caption innerHTML back into `_data`,
recomputes `this.data.aspectRatio =
(videoEl?.videoWidth ?? 1) / (videoEl?.videoHeight ?? 1)` and returns
the record (first component) together with the updated state. -/
def save (s : ToolState) : InternalData × ToolState :=
  let cap := s.ui.captionHTML
  let w := (s.ui.videoEl.bind (fun el => el.videoWidth)).getD 1
  let h := (s.ui.videoEl.bind (fun el => el.videoHeight)).getD 1
  let d : InternalData := { file := s.record.file, caption := cap, aspect := jsDivNat w h }
  (d, { s with record := d })

/-- `VideoTool.tuneToggled`: for the `caption` tune applies the tune and,
when toggled off, clears the caption text in `_data` and the Ui; for any
other tune name throws an `Error`. -/
def tuneToggled (tuneName : String) (state : Bool) (s : ToolState) : Except String ToolState :=
  if tuneName = "caption" then
    let s1 := { s with ui := applyTune tuneName state s.ui }
    Except.ok (if state = false then
      { s1 with record := { s1.record with caption := "" }, ui := fillCaption "" s1.ui }
    else s1)
  else
    Except.error ("There is no tune with name " ++ tuneName ++ " in Video Tool")

/-- Matcher for `(\?[a-z0-9=]*)?$`: the rest of the string is empty or a
`?` followed by characters from `[a-z0-9=]` (input already lowercased). -/
def queryOpt : List Char → Bool
  | [] => true
  | '?' :: rest => rest.all (fun c => ('a' ≤ c && c ≤ 'z') || ('0' ≤ c && c ≤ '9') || c = '=')
  | _ => false

/-- Matcher for `\.(webm|mp4)(\?[a-z0-9=]*)?$` anchored at both ends. -/
def extQueryMatch (l : List Char) : Bool :=
  match l with
  | '.' :: rest =>
      (rest.take 4 = ['w', 'e', 'b', 'm'] && queryOpt (rest.drop 4)) ||
      (rest.take 3 = ['m', 'p', '4'] && queryOpt (rest.drop 3))
  | _ => false

/-- Matcher for `\S+\.(webm|mp4)(\?[a-z0-9=]*)?$` anchored at both ends:
one or more non-whitespace characters, then the extension part. -/
def bodyMatch : List Char → Bool
  | [] => false
  | c :: rest => !c.isWhitespace && (extQueryMatch rest || bodyMatch rest)

/-- Matcher for `https?:\/\/` followed by the body, anchored at the
start. -/
def schemeMatch : List Char → Bool
  | 'h' :: 't' :: 't' :: 'p' :: rest =>
      (match rest with
       | ':' :: '/' :: '/' :: r => bodyMatch r
       | 's' :: ':' :: '/' :: '/' :: r => bodyMatch r
       | _ => false)
  | _ => false

/-- ASCII lowercasing of one character, realising the `i` flag. -/
def lowerChar (c : Char) : Char :=
  if 'A' ≤ c && c ≤ 'Z' then Char.ofNat (c.toNat + 32) else c

/-- The paste pattern of `VideoTool.pasteConfig`:
`/https?:\/\/\S+\.(webm|mp4)(\?[a-z0-9=]*)?$/i`, i.e. case-insensitive,
anchored only at the end. -/
def videoPatternTest (url : String) : Bool :=
  ((url.data.map lowerChar).tails.any schemeMatch)

/-! ## Helper lemmas -/

/-- Setting the video from a present file object stores that object
wholesale in `_data.file`. -/
theorem videoSetter_file (f : FileObj) (s : ToolState) :
    (videoSetter (some f) s).record.file = f := by
  unfold videoSetter
  cases hu : f.url with
  | none => simp [hu]
  | some u => by_cases h : u = "" <;> simp [hu, h]

/-- Setting the video touches neither the rest of the record, the
notification count, the caption element, nor the configuration. -/
theorem videoSetter_preserves (o : Option FileObj) (s : ToolState) :
    (videoSetter o s).record.caption = s.record.caption
  ∧ (videoSetter o s).record.aspect = s.record.aspect
  ∧ (videoSetter o s).notices = s.notices
  ∧ (videoSetter o s).ui.captionHTML = s.ui.captionHTML
  ∧ (videoSetter o s).featuresCaption = s.featuresCaption := by
  unfold videoSetter
  cases o with
  | none => simp
  | some f =>
      cases hu : f.url with
      | none => simp [hu]
      | some u => by_cases h : u = "" <;> simp [hu, h, fillVideo]

/-- An `onUpload` whose response reports success and carries a present
`file` value takes the acceptance branch. -/
theorem onUpload_accept (resp : UploadResponseFormat) (s : ToolState) (f : FileObj)
    (hf : resp.file = some f) (hs : resp.success ≠ 0) :
    onUpload resp s = videoSetter (some f) s := by
  unfold onUpload
  rw [hf]
  simp [hs]

/-- An `onUpload` whose response reports `success = 0` or carries no
`file` takes the failure branch. -/
theorem onUpload_reject (resp : UploadResponseFormat) (s : ToolState)
    (h : resp.success = 0 ∨ resp.file = none) :
    onUpload resp s = uploadingFailed s := by
  unfold onUpload
  cases h with
  | inl h0 => simp [h0]
  | inr hn => simp [hn]

/-- After the `data` setter, the Ui caption element holds
`data.caption || ''`. -/
theorem dataSetter_ui_captionHTML (d : VideoToolData) (s : ToolState) :
    (dataSetter d s).ui.captionHTML = d.caption.getD "" := by
  unfold dataSetter
  simp only [(videoSetter_preserves d.file s).2.2.2.2]
  by_cases h : s.featuresCaption = CaptionFeature.ctrue <;>
    simp [h, fillCaption, applyTune]

/-- After the `data` setter, `_data.file` is the supplied file object
when one is present. -/
theorem dataSetter_record_file (d : VideoToolData) (s : ToolState) (f : FileObj)
    (hf : d.file = some f) :
    (dataSetter d s).record.file = f := by
  unfold dataSetter
  simp only [(videoSetter_preserves d.file s).2.2.2.2]
  by_cases h : s.featuresCaption = CaptionFeature.ctrue <;>
    simp [h, applyTune, hf, videoSetter_file f s]

/-! ## Claim theorems -/

/-- C1, counterexample: the server response `{success: 1, file: {}}`
claims success but its `file` object has no `url`; the claim says such
a response must take the failure path and never be accepted, yet
`onUpload` accepts it — the record's file is replaced by the url-less
object (changing it) and no failure notification is raised. -/
theorem C1_counterexample :
    (onUpload { success := 1, file := some { url := none, extra := [] } }
      (mkTool CaptionFeature.cundef { file := none, caption := none, aspect := none })).record.file
      = { url := none, extra := [] }
  ∧ (onUpload { success := 1, file := some { url := none, extra := [] } }
      (mkTool CaptionFeature.cundef { file := none, caption := none, aspect := none })).notices = 0
  ∧ (mkTool CaptionFeature.cundef { file := none, caption := none, aspect := none }).record.file
      ≠ ({ url := none, extra := [] } : FileObj) := by
  decide

/-- C1, amended: `onUpload` accepts a response (replacing the record's
file, raising no notification) iff it reports success and carries any
present `file` value — the `url` inside it is not inspected; a response
with `success = 0` or a missing `file` takes the failure path (record
untouched, exactly one notification). -/
theorem C1_accept_iff_success_and_file (resp : UploadResponseFormat) (s : ToolState) :
    (∀ f, resp.file = some f → resp.success ≠ 0 →
        (onUpload resp s).record.file = f ∧ (onUpload resp s).notices = s.notices)
  ∧ (resp.success = 0 ∨ resp.file = none →
        (onUpload resp s).record = s.record ∧ (onUpload resp s).notices = s.notices + 1) := by
  constructor
  · intro f hf hs
    rw [onUpload_accept resp s f hf hs]
    exact ⟨videoSetter_file f s, (videoSetter_preserves (some f) s).2.2.1⟩
  · intro h
    rw [onUpload_reject resp s h]
    exact ⟨rfl, rfl⟩

/-- C1 witness: a concrete accepted response. -/
theorem C1_accept_iff_success_and_file_witness :
    (onUpload { success := 1, file := some { url := some "https://x/v.mp4", extra := [] } }
      (mkTool CaptionFeature.cundef { file := none, caption := none, aspect := none })).record.file
      = { url := some "https://x/v.mp4", extra := [] } :=
  ((C1_accept_iff_success_and_file
      { success := 1, file := some { url := some "https://x/v.mp4", extra := [] } }
      (mkTool CaptionFeature.cundef { file := none, caption := none, aspect := none })).1
    { url := some "https://x/v.mp4", extra := [] } rfl (by decide)).1

/-- C2: for a valid server response (`success = 1`, non-empty
`file.url`), after `onUpload` the record's `file` equals the
response's `file` object exactly, extra pass-through fields included. -/
theorem C2_valid_response_replaces_file (resp : UploadResponseFormat) (s : ToolState)
    (f : FileObj) (u : String)
    (hs : resp.success = 1) (hf : resp.file = some f)
    (hu : f.url = some u) (hne : u ≠ "") :
    (onUpload resp s).record.file = f := by
  rw [onUpload_accept resp s f hf (by simp [hs])]
  exact videoSetter_file f s

/-- C2 witness: a concrete valid response with an extra pass-through
field is stored wholesale. -/
theorem C2_valid_response_replaces_file_witness :
    (onUpload
      { success := 1
      , file := some { url := some "https://x/v.mp4", extra := [("size", "10")] } }
      (mkTool CaptionFeature.cundef { file := none, caption := none, aspect := none })).record.file
      = { url := some "https://x/v.mp4", extra := [("size", "10")] } :=
  C2_valid_response_replaces_file
    { success := 1, file := some { url := some "https://x/v.mp4", extra := [("size", "10")] } }
    (mkTool CaptionFeature.cundef { file := none, caption := none, aspect := none })
    { url := some "https://x/v.mp4", extra := [("size", "10")] }
    "https://x/v.mp4" rfl rfl rfl (by decide)

/-- C3: for a failing response (`success = 0` or missing `file`), the
data record is completely unchanged (file, caption and aspect ratio
keep their previous values), exactly one failure notification is
raised, and the widget status returns to Empty. -/
theorem C3_failure_leaves_record (resp : UploadResponseFormat) (s : ToolState)
    (h : resp.success = 0 ∨ resp.file = none) :
    (onUpload resp s).record = s.record
  ∧ (onUpload resp s).notices = s.notices + 1
  ∧ (onUpload resp s).ui.statusClasses = [UiState.empty] := by
  rw [onUpload_reject resp s h]
  exact ⟨rfl, rfl, rfl⟩

/-- C3 witness: a concrete `success = 0` response against a filled
record. -/
theorem C3_failure_leaves_record_witness :
    (onUpload { success := 0, file := none }
      (mkTool CaptionFeature.cundef
        { file := some { url := some "https://x/old.mp4", extra := [] }
        , caption := some "old", aspect := some (JSNum.num 2) })).record
      = (mkTool CaptionFeature.cundef
        { file := some { url := some "https://x/old.mp4", extra := [] }
        , caption := some "old", aspect := some (JSNum.num 2) }).record :=
  (C3_failure_leaves_record { success := 0, file := none }
    (mkTool CaptionFeature.cundef
      { file := some { url := some "https://x/old.mp4", extra := [] }
      , caption := some "old", aspect := some (JSNum.num 2) })
    (Or.inl rfl)).1

/-- C4, counterexample: `validate` on a record whose `file` field is
missing throws a `TypeError` (reading `url` of `undefined`) instead of
returning `false` as the claim states. -/
theorem C4_counterexample :
    validate { file := none, caption := none, aspect := none }
      = Except.error "TypeError: cannot read url of undefined"
  ∧ validate { file := none, caption := none, aspect := none } ≠ Except.ok false := by
  refine ⟨rfl, ?_⟩
  intro h
  exact Except.noConfusion h

/-- C4, amended: when `file` is present, `validate` returns `true` iff
`file.url` is a non-empty string and `false` when `url` is absent or
the empty string; when `file` itself is missing or null, `validate`
throws a TypeError rather than returning `false`. -/
theorem C4_validate_truthy_url (d : VideoToolData) :
    (d.file = none → validate d = Except.error "TypeError: cannot read url of undefined")
  ∧ (∀ f, d.file = some f →
      ((validate d = Except.ok true) ↔ ∃ u, f.url = some u ∧ u ≠ "")
    ∧ ((validate d = Except.ok false) ↔ (f.url = none ∨ f.url = some ""))) := by
  constructor
  · intro h
    simp [validate, h]
  · intro f hf
    constructor
    · cases hu : f.url with
      | none => simp [validate, hf, strTruthy, hu]
      | some u => by_cases h : u = "" <;> simp [validate, hf, strTruthy, hu, h]
    · cases hu : f.url with
      | none => simp [validate, hf, strTruthy, hu]
      | some u => by_cases h : u = "" <;> simp [validate, hf, strTruthy, hu, h]

/-- C4 witness: a present `file` with an empty `url` yields `ok false`. -/
theorem C4_validate_truthy_url_witness :
    validate { file := some { url := some "", extra := [] }, caption := none, aspect := none }
      = Except.ok false :=
  ((C4_validate_truthy_url
      { file := some { url := some "", extra := [] }, caption := none, aspect := none }).2
    { url := some "", extra := [] } rfl).2.mpr (Or.inr rfl)

/-- C5: from every prior Ui status, `showPreloader()` moves the status
to Uploading; `fillVideo(url)` leaves the status classes untouched (so
the status is never Filled before the element's readiness event), and
the status becomes exactly Filled once the attached load/loadeddata
listener fires. -/
theorem C5_preloader_and_filled_gating (ui : UiModel) (url : String) :
    (showPreloader ui).statusClasses = [UiState.uploading]
  ∧ (fillVideo url ui).statusClasses = ui.statusClasses
  ∧ (fireMediaEvent (fillVideo url ui)).statusClasses = [UiState.filled] :=
  ⟨rfl, rfl, rfl⟩

/-- C6, counterexample: `https://x/a.webm` is recognized by the paste
pattern as a video URL, but `fillVideo` gives it a static image element
with the generic `load` readiness event, not a playable video element. -/
theorem C6_counterexample :
    videoPatternTest "https://x/a.webm" = true
  ∧ ((fillVideo "https://x/a.webm" initUi).videoEl.map MediaEl.tag) = some MediaTag.IMG
  ∧ ((fillVideo "https://x/a.webm" initUi).videoEl.map MediaEl.eventName) = some "load" := by
  decide

/-- C6, amended: the element kind is chosen by the test `/\.mp4$/` on
the source url alone — a url ending exactly in `.mp4` yields a playable
video element whose readiness event is `loadeddata`, and every other
source (including `.webm` urls accepted by the paste pattern) yields a
static image element whose readiness event is `load`. -/
theorem C6_mp4_selects_video_element (url : String) (ui : UiModel) :
    ∃ el, (fillVideo url ui).videoEl = some el
      ∧ el.src = url
      ∧ el.tag = (if mp4Test url then MediaTag.VIDEO else MediaTag.IMG)
      ∧ el.eventName = (if mp4Test url then "loadeddata" else "load") :=
  ⟨_, rfl, rfl, rfl, rfl⟩

/-- C7, counterexample: a controller state reached by constructing the
tool from saved data with an `.mp4` url has a live video element whose
reported natural dimensions are still `0 × 0`, and `save()` then
computes `0 / 0 = NaN` — not the claimed default `1` and not a positive
number. -/
theorem C7_counterexample :
    (save (mkTool CaptionFeature.cundef
      { file := some { url := some "https://x/a.mp4", extra := [] }
      , caption := none, aspect := some (JSNum.num 1) })).1.aspect = JSNum.nan
  ∧ jsPositive JSNum.nan = false := by
  decide

/-- C7, amended: `save()` recomputes the aspect ratio as
`(videoWidth ?? 1) / (videoHeight ?? 1)` from the live element; the
result is `1` when no media element exists (both dimensions default),
and it is a positive number whenever both defaulted dimensions are
positive — but a video element reporting zero dimensions escapes the
`?? 1` defaulting, so positivity needs that hypothesis. -/
theorem C7_aspect_positive_when_dims_positive (s : ToolState)
    (hw : 0 < ((s.ui.videoEl.bind fun el => el.videoWidth).getD 1))
    (hh : 0 < ((s.ui.videoEl.bind fun el => el.videoHeight).getD 1)) :
    jsPositive (save s).1.aspect = true
  ∧ (s.ui.videoEl = none → (save s).1.aspect = JSNum.num 1) := by
  constructor
  · show jsPositive (jsDivNat ((s.ui.videoEl.bind fun el => el.videoWidth).getD 1)
      ((s.ui.videoEl.bind fun el => el.videoHeight).getD 1)) = true
    have hh0 : ((s.ui.videoEl.bind fun el => el.videoHeight).getD 1) ≠ 0 :=
      Nat.pos_iff_ne_zero.mp hh
    unfold jsDivNat
    rw [if_neg hh0]
    show decide (0 < ((((s.ui.videoEl.bind fun el => el.videoWidth).getD 1) : ℚ) /
      (((s.ui.videoEl.bind fun el => el.videoHeight).getD 1) : ℚ))) = true
    rw [decide_eq_true_eq]
    exact div_pos (by exact_mod_cast hw) (by exact_mod_cast hh)
  · intro hnone
    show jsDivNat ((s.ui.videoEl.bind fun el => el.videoWidth).getD 1)
      ((s.ui.videoEl.bind fun el => el.videoHeight).getD 1) = JSNum.num 1
    rw [hnone]
    norm_num [jsDivNat]

/-- C7 witness: the freshly constructed empty tool has no media element,
so both dimensions default to `1` and the saved aspect ratio is the
positive number `1`. -/
theorem C7_aspect_positive_witness :
    jsPositive (save (mkTool CaptionFeature.cundef
      { file := none, caption := none, aspect := none })).1.aspect = true :=
  (C7_aspect_positive_when_dims_positive
    (mkTool CaptionFeature.cundef { file := none, caption := none, aspect := none })
    (by decide) (by decide)).1

/-- C8, counterexample: right after construction (before `render()` has
run), the wrapper carries none of the three status classes, so it is
not the case that exactly one `UiStatus` is active at every point of
the widget's lifetime. -/
theorem C8_counterexample :
    (mkTool CaptionFeature.cundef
      { file := none, caption := none, aspect := none }).ui.statusClasses = ([] : List UiState)
  ∧ (mkTool CaptionFeature.cundef
      { file := none, caption := none, aspect := none }).ui.statusClasses.length ≠ 1 := by
  decide

/-- C8, amended: after construction zero status classes are active until
the first `toggleStatus` (run by `render`, `showPreloader` or
`hidePreloader`); every `toggleStatus` leaves exactly one active, and
`fillVideo`, the readiness listener, `fillCaption` and `applyTune`
preserve the exactly-one property from then on. -/
theorem C8_exactly_one_after_first_toggle (ui : UiModel) (st : UiState)
    (url t name : String) (b : Bool) :
    initUi.statusClasses.length = 0
  ∧ (toggleStatus st ui).statusClasses.length = 1
  ∧ (uiRender ui).statusClasses.length = 1
  ∧ (showPreloader ui).statusClasses.length = 1
  ∧ (hidePreloader ui).statusClasses.length = 1
  ∧ (ui.statusClasses.length = 1 →
        (fillVideo url ui).statusClasses.length = 1
      ∧ (fireMediaEvent ui).statusClasses.length = 1
      ∧ (fillCaption t ui).statusClasses.length = 1
      ∧ (applyTune name b ui).statusClasses.length = 1) := by
  refine ⟨rfl, rfl, rfl, rfl, rfl, fun h => ⟨h, ?_, h, h⟩⟩
  cases hv : ui.videoEl with
  | none => simpa [fireMediaEvent, hv] using h
  | some el => simp [fireMediaEvent, hv, toggleStatus]

/-- C8 witness: after `render` the invariant holds and is preserved by
`fillVideo`. -/
theorem C8_exactly_one_witness :
    (fillVideo "https://x/a.mp4" (uiRender initUi)).statusClasses.length = 1 :=
  ((C8_exactly_one_after_first_toggle (uiRender initUi) UiState.empty
      "https://x/a.mp4" "" "" true).2.2.2.2.2 (by decide)).1

/-- C9: toggling the caption tune off clears the record's caption text
and the Ui caption, while invoking the tune-toggled handler with any
other tune name throws an Error. -/
theorem C9_tune_toggled (s : ToolState) (name : String) (b : Bool)
    (h : name ≠ "caption") :
    (∃ s2, tuneToggled "caption" false s = Except.ok s2
        ∧ s2.record.caption = "" ∧ s2.ui.captionHTML = "")
  ∧ tuneToggled name b s
      = Except.error ("There is no tune with name " ++ name ++ " in Video Tool") := by
  refine ⟨⟨_, rfl, rfl, rfl⟩, ?_⟩
  simp [tuneToggled, h]

/-- C9 witness: the unknown tune name `video` throws. -/
theorem C9_tune_toggled_witness :
    tuneToggled "video" true (mkTool CaptionFeature.cundef
      { file := none, caption := none, aspect := none })
      = Except.error "There is no tune with name video in Video Tool" :=
  (C9_tune_toggled
    (mkTool CaptionFeature.cundef { file := none, caption := none, aspect := none })
    "video" true (by decide)).2

/-- C10: constructing the controller from saved data `d` whose `file`
is present, if no live media element was created (which is the case
exactly when `d.file.url` is empty), then `save()` returns aspect ratio
`1` regardless of `d.aspectRatio`, while the returned `file` equals
`d.file` and the returned caption is `d.caption` (or `''` when
absent). -/
theorem C10_save_resets_aspect (fc : CaptionFeature) (d : VideoToolData) (f : FileObj)
    (hf : d.file = some f)
    (hel : (mkTool fc d).ui.videoEl = none) :
    (save (mkTool fc d)).1.aspect = JSNum.num 1
  ∧ (save (mkTool fc d)).1.file = f
  ∧ (save (mkTool fc d)).1.caption = d.caption.getD "" := by
  refine ⟨?_, ?_, ?_⟩
  · show jsDivNat (((mkTool fc d).ui.videoEl.bind fun el => el.videoWidth).getD 1)
      (((mkTool fc d).ui.videoEl.bind fun el => el.videoHeight).getD 1) = JSNum.num 1
    rw [hel]
    norm_num [jsDivNat]
  · show (mkTool fc d).record.file = f
    exact dataSetter_record_file d _ f hf
  · show (mkTool fc d).ui.captionHTML = d.caption.getD ""
    exact dataSetter_ui_captionHTML d _

/-- C10 witness: saved data with empty url, a caption and aspect ratio
`7`; `save()` right after construction yields aspect ratio `1` (the `7`
is not round-tripped), the same file object and the caption. -/
theorem C10_save_resets_aspect_witness :
    (save (mkTool CaptionFeature.cundef
      { file := some { url := some "", extra := [] }
      , caption := some "hello", aspect := some (JSNum.num 7) })).1.aspect = JSNum.num 1
  ∧ (save (mkTool CaptionFeature.cundef
      { file := some { url := some "", extra := [] }
      , caption := some "hello", aspect := some (JSNum.num 7) })).1.file
      = { url := some "", extra := [] }
  ∧ (save (mkTool CaptionFeature.cundef
      { file := some { url := some "", extra := [] }
      , caption := some "hello", aspect := some (JSNum.num 7) })).1.caption = "hello" :=
  C10_save_resets_aspect CaptionFeature.cundef
    { file := some { url := some "", extra := [] }
    , caption := some "hello", aspect := some (JSNum.num 7) }
    { url := some "", extra := [] } rfl (by decide)
